import Mathlib

/-!
Shallow embedding of the revenue-recovery incoming-webhook flow
(crates/router/src/core/webhooks/recovery_incoming.rs).

External collaborators (payment core, billing connector, the process-tracker
store, the schedule-time provider) are modelled as an environment of result
oracles; every call the flow makes to a collaborator is recorded in a trace of
effects, so that properties about which calls happen (and in which order) can
be stated and proved.
-/

set_option autoImplicit false

/-- Payment intent lifecycle status (subset of common_enums::IntentStatus). -/
inductive IntentStatus where
  | succeeded
  | failed
  | processing
  | requiresPaymentMethod
  deriving DecidableEq, Repr

/-- Payment attempt status (subset of common_enums::AttemptStatus). -/
inductive AttemptStatus where
  | charged
  | failure
  | pending
  deriving DecidableEq, Repr

/-- Modelled from the spec: which party triggered a payment attempt, the
system's own payment flow (internal) or an external billing connector
(common_enums::TriggeredBy, defined outside this repository's files). -/
inductive TriggeredBy where
  | internal
  | external
  deriving DecidableEq, Repr

/-- Modelled from the spec: the From conversion of an attempt status into an
intent status used when the recorded attempt refreshes the intent (the
conversion lives outside this repository's files; the spec only says the
updated intent's status is refreshed from the attempt). -/
def AttemptStatus.toIntentStatus : AttemptStatus → IntentStatus
  | .charged => .succeeded
  | .failure => .failed
  | .pending => .processing

/-- Modelled from the spec: nested retry counter inside the payment intent's
feature metadata (hyperswitch_domain_models, outside this repository's files). -/
structure PaymentRevenueRecoveryMetadata where
  total_retry_count : Nat
  deriving DecidableEq, Repr

/-- Feature metadata carried by a payment intent response. -/
structure PaymentsFeatureMetadata where
  payment_revenue_recovery : Option PaymentRevenueRecoveryMetadata
  deriving DecidableEq, Repr

/-- Modelled from the spec: extraction of the nested retry counter from intent
feature metadata (method defined outside this repository's files). -/
def PaymentsFeatureMetadata.get_retry_count (m : PaymentsFeatureMetadata) : Option Nat :=
  m.payment_revenue_recovery.map (fun r => r.total_retry_count)

/-- Revenue-recovery data inside attempt feature metadata. -/
structure PaymentAttemptRevenueRecoveryData where
  attempt_triggered_by : TriggeredBy
  deriving DecidableEq, Repr

/-- Feature metadata carried by a payment attempt. -/
structure PaymentAttemptFeatureMetadata where
  revenue_recovery : Option PaymentAttemptRevenueRecoveryData
  deriving DecidableEq, Repr

/-- revenue_recovery::RecoveryPaymentIntent. -/
structure RecoveryPaymentIntent where
  payment_id : String
  status : IntentStatus
  feature_metadata : Option PaymentsFeatureMetadata
  deriving DecidableEq, Repr

/-- revenue_recovery::RecoveryPaymentAttempt. -/
structure RecoveryPaymentAttempt where
  attempt_id : String
  attempt_status : AttemptStatus
  feature_metadata : Option PaymentAttemptFeatureMetadata
  deriving DecidableEq, Repr

/-- Modelled from the spec: projection of the trigger source out of a recovery
payment attempt's feature metadata (method defined outside this repository's
files; the spec says the attempt's feature metadata records which party
triggered the attempt). -/
def RecoveryPaymentAttempt.get_attempt_triggered_by
    (a : RecoveryPaymentAttempt) : Option TriggeredBy :=
  a.feature_metadata.bind (fun m => m.revenue_recovery.map (fun r => r.attempt_triggered_by))

/-- Error details attached to a failed attempt (RecordAttemptErrorDetails). -/
structure ErrorDetails where
  code : String
  message : String
  deriving DecidableEq, Repr

/-- Amount details of an attempt (PaymentAttemptAmountDetails). -/
structure AmountDetails where
  amount : Nat
  deriving DecidableEq, Repr

/-- revenue_recovery::RevenueRecoveryInvoiceData, the normalized invoice facts. -/
structure RevenueRecoveryInvoiceData where
  merchant_reference_id : String
  amount : Nat
  currency : String
  deriving DecidableEq, Repr

/-- revenue_recovery::RevenueRecoveryAttemptData, the normalized transaction
facts extracted from a webhook or sync response. -/
structure RevenueRecoveryAttemptData where
  connector_transaction_id : Option String
  connector_account_reference_id : Option String
  status : AttemptStatus
  payment_method_type : String
  payment_method_sub_type : String
  amount_details : AmountDetails
  error : Option ErrorDetails
  transaction_created_at : Option Nat
  processor_payment_method_token : Option String
  connector_customer_id : Option String
  deriving DecidableEq, Repr

/-- Modelled from the spec: the billing connector's payment-sync response,
carrying the authoritative invoice and attempt facts it converts to (the From
conversions are defined outside this repository's files and are modelled here
as projections). -/
structure BillingConnectorPaymentsSyncResponse where
  invoice : RevenueRecoveryInvoiceData
  attempt : RevenueRecoveryAttemptData
  deriving DecidableEq, Repr

/-- RecoveryAction: enumerated decision of the event classifier. -/
inductive RecoveryAction where
  | cancelInvoice
  | scheduleFailedPayment
  | successPaymentExternal
  | pendingPayment
  | noAction
  | invalidAction
  deriving DecidableEq, Repr

/-- Incoming webhook event types relevant to revenue recovery (subset of
webhooks::IncomingWebhookEvent). -/
inductive IncomingWebhookEvent where
  | recoveryPaymentFailure
  | recoveryPaymentSuccess
  | recoveryPaymentPending
  | recoveryInvoiceCancel
  | otherEvent
  deriving DecidableEq, Repr

/-- Modelled from the spec: whether an event is a transaction-type recovery
event (method defined outside this repository's files; the spec says
transaction state events concern payment attempts while invoice events do
not). -/
def IncomingWebhookEvent.is_recovery_transaction_event : IncomingWebhookEvent → Bool
  | .recoveryPaymentFailure => true
  | .recoveryPaymentSuccess => true
  | .recoveryPaymentPending => true
  | .recoveryInvoiceCancel => false
  | .otherEvent => false

/-- Modelled from the spec: the EventClassifier, a pure total function from the
webhook event type and the last attempt's trigger source to a RecoveryAction
(RecoveryAction::get_action is defined outside this repository's files; per the
spec, internally triggered attempts need no action, external or unknown
triggers on failure events schedule a retry, recognized success events with
external trigger yield SuccessPaymentExternal, pending events are pending,
invoice cancellation maps to CancelInvoice, and unrecognized combinations map
to InvalidAction, never a failure). -/
def RecoveryAction.get_action
    (event_type : IncomingWebhookEvent) (triggered_by : Option TriggeredBy) : RecoveryAction :=
  match event_type with
  | .recoveryPaymentFailure =>
    match triggered_by with
    | some .internal => .noAction
    | some .external => .scheduleFailedPayment
    | none => .scheduleFailedPayment
  | .recoveryPaymentSuccess =>
    match triggered_by with
    | some .internal => .noAction
    | some .external => .successPaymentExternal
    | none => .successPaymentExternal
  | .recoveryPaymentPending => .pendingPayment
  | .recoveryInvoiceCancel => .cancelInvoice
  | .otherEvent => .invalidAction

/-- errors::RevenueRecoveryError, the typed error taxonomy of the flow. -/
inductive RevenueRecoveryError where
  | webhookAuthenticationFailed
  | invoiceWebhookProcessingFailed
  | transactionWebhookProcessingFailed
  | billingConnectorPaymentsSyncFailed
  | paymentIntentFetchFailed
  | paymentIntentCreateFailed
  | paymentAttemptFetchFailed
  | paymentMerchantConnectorAccountNotFound
  | billingThresholdRetryCountFetchFailed
  | retryCountFetchFailed
  | scheduleTimeFetchFailed
  | paymentAttemptIdNotFound
  | processTrackerCreationError
  | processTrackerResponseError
  deriving DecidableEq, Repr

/-- Shape of a payment-core application response: either the expected json
body with headers, or any other response shape. -/
inductive ApplicationResponse (α : Type) where
  | jsonWithHeaders (body : α)
  | otherShape
  deriving DecidableEq, Repr

/-- Kind of error context reported by the payment core on a failed call:
either the specific payment-not-found error, or any other api error. -/
inductive ApiErrorKind where
  | paymentNotFound
  | otherApiError
  deriving DecidableEq, Repr

/-- Payment intent response body of the payment core (the three fields the
flow reads: id, status and feature metadata). -/
structure PaymentsResponse where
  id : String
  status : IntentStatus
  feature_metadata : Option PaymentsFeatureMetadata
  deriving DecidableEq, Repr

/-- One attempt inside the expanded attempts list of a payments response. -/
structure AttemptInList where
  id : String
  status : AttemptStatus
  feature_metadata : Option PaymentAttemptFeatureMetadata
  connector_transaction_id : Option String
  deriving DecidableEq, Repr

/-- Payments response with the expanded attempts list, as returned by the
payment-status call with expand_attempts set. -/
structure PaymentsResponseWithAttempts where
  attempts : List AttemptInList
  deriving DecidableEq, Repr

/-- Response body of the record-attempt core call (the fields the flow
reads). -/
structure RecordAttemptResponse where
  id : String
  status : AttemptStatus
  payment_attempt_feature_metadata : Option PaymentAttemptFeatureMetadata
  payment_intent_feature_metadata : Option PaymentsFeatureMetadata
  deriving DecidableEq, Repr

/-- The merchant's own payment connector account (the two fields the flow
reads: id and connector name). -/
structure MerchantConnectorAccount where
  id : String
  connector_name : String
  deriving DecidableEq, Repr

/-- The billing connector's merchant connector account, modelled with the
three capabilities the flow uses: its id, the merchant-configured retry
threshold, and the reference-to-account mapping used to locate the payment
connector account (the underlying domain type is defined outside this
repository's files). -/
structure BillingAccount where
  account_id : String
  retry_threshold : Option Nat
  account_reference_map : Option String → Option String

/-- Accessor mirroring get_id on the billing connector account. -/
def BillingAccount.get_id (a : BillingAccount) : String := a.account_id

/-- Modelled from the spec: get_retry_threshold on the billing connector
account, the merchant-configured maximum number of recovery attempts (method
defined outside this repository's files). -/
def BillingAccount.get_retry_threshold (a : BillingAccount) : Option Nat :=
  a.retry_threshold

/-- Modelled from the spec: the reference-to-account mapping of the billing
connector account, taking the optional account reference id carried by the
attempt data to the optional id of the merchant's payment connector account
(method defined outside this repository's files). -/
def BillingAccount.get_payment_merchant_connector_account_id_using_account_reference_id
    (a : BillingAccount) (reference_id : Option String) : Option String :=
  a.account_reference_map reference_id

/-- storage::ProcessTrackerRunner (the variant used by this flow). -/
inductive ProcessTrackerRunner where
  | passiveRecoveryWorkflow
  deriving DecidableEq, Repr

/-- Modelled from the spec: the display form of the runner tag used inside the
deterministic task id (the Display implementation is defined outside this
repository's files). -/
def ProcessTrackerRunner.display : ProcessTrackerRunner → String
  | .passiveRecoveryWorkflow => "PASSIVE_RECOVERY_WORKFLOW"

/-- Api version marker on the task row. -/
inductive ApiVersion where
  | v1
  | v2
  deriving DecidableEq, Repr

/-- storage_churn_recovery::PcrWorkflowTrackingData, the serialized tracking
payload of the durable retry task. -/
structure PcrWorkflowTrackingData where
  billing_mca_id : String
  global_payment_id : String
  merchant_id : String
  profile_id : String
  payment_attempt_id : String
  deriving DecidableEq, Repr

/-- storage::ProcessTrackerNew, the durable task row the flow inserts. -/
structure ProcessTrackerNew where
  id : String
  name : String
  runner : ProcessTrackerRunner
  tag : List String
  tracking_data : PcrWorkflowTrackingData
  retry_count : Option Nat
  schedule_time : Nat
  version : ApiVersion
  deriving DecidableEq, Repr

/-- api_payments::PaymentsAttemptRecordRequest, the request built by
create_payment_record_request (fields the source sets; fields the source
hardcodes to None are kept as options). -/
structure PaymentsAttemptRecordRequest where
  amount_details : AmountDetails
  status : AttemptStatus
  billing : Option Unit
  shipping : Option Unit
  connector : Option String
  payment_merchant_connector_id : Option String
  error : Option ErrorDetails
  description : Option String
  connector_transaction_id : Option String
  payment_method_type : String
  billing_connector_id : String
  payment_method_subtype : String
  payment_method_data : Option Unit
  metadata : Option Unit
  feature_metadata : Option PaymentAttemptFeatureMetadata
  transaction_created_at : Option Nat
  processor_payment_method_token : Option String
  connector_customer_id : Option String
  deriving DecidableEq, Repr

/-- webhooks::WebhookResponseTracker (the variants this flow produces). -/
inductive WebhookResponseTracker where
  | noEffect
  | payment (payment_id : String) (status : IntentStatus)
  deriving DecidableEq, Repr

/-- One observable call to an external collaborator or store. -/
inductive Effect where
  | syncCall
  | webhookInvoiceParse
  | webhookAttemptParse
  | fetchIntent (merchant_reference_id : String)
  | createIntent
  | fetchAttempts (payment_id : String)
  | recordAttempt (request : PaymentsAttemptRecordRequest)
  | findMcaById (mca_id : String)
  | fetchScheduleTime
  | insertProcess (entry : ProcessTrackerNew)
  deriving DecidableEq, Repr

/-- Environment of result oracles for every external collaborator the flow
calls; each oracle gives the outcome the collaborator would return for a given
input. -/
structure Env where
  connectorParse : Except Unit Unit
  syncRequired : Bool
  objectRefTxnId : Except Unit String
  syncCall : String → Except Unit BillingConnectorPaymentsSyncResponse
  webhookInvoice : Except Unit RevenueRecoveryInvoiceData
  webhookAttempt : Except Unit RevenueRecoveryAttemptData
  intentFetch : String → Except ApiErrorKind (ApplicationResponse PaymentsResponse)
  intentCreate : RevenueRecoveryInvoiceData → Except Unit (ApplicationResponse PaymentsResponse)
  attemptsFetch : String → Except Unit (ApplicationResponse PaymentsResponseWithAttempts)
  recordAttempt : PaymentsAttemptRecordRequest → Except Unit (ApplicationResponse RecordAttemptResponse)
  mcaFetch : String → Except Unit MerchantConnectorAccount
  scheduleTime : Nat → Option Nat
  trackerConstructOk : Bool
  insertProcess : ProcessTrackerNew → Except Unit Unit

/-- Traced fallible computation: the list of effects performed so far paired
with the typed result. -/
abbrev RRes (α : Type) := List Effect × Except RevenueRecoveryError α

/-- Sequencing of traced fallible computations: on error the trace so far is
kept and the error propagates; on success the continuation runs and its trace
is appended. -/
def RRes.bind {α β : Type} (x : RRes α) (f : α → RRes β) : RRes β :=
  match x with
  | (t, .error e) => (t, .error e)
  | (t, .ok a) => (t ++ (f a).1, (f a).2)

theorem RRes.bind_ok {α β : Type} (t : List Effect) (a : α) (f : α → RRes β) :
    RRes.bind (t, .ok a) f = (t ++ (f a).1, (f a).2) := rfl

theorem RRes.bind_error {α β : Type} (t : List Effect) (e : RevenueRecoveryError)
    (f : α → RRes β) : RRes.bind (t, .error e) f = (t, .error e) := rfl

/-- BillingConnectorPaymentsSyncResponseData::get_billing_connector_payment_details:
when the connector requires a payment-sync call, extract the connector
transaction id from the object reference and execute the sync call, otherwise
skip with none. -/
def get_billing_connector_payment_details (env : Env)
    (should_billing_connector_payment_api_called : Bool) :
    RRes (Option BillingConnectorPaymentsSyncResponse) :=
  match should_billing_connector_payment_api_called with
  | true =>
    match env.objectRefTxnId with
    | .error _ => ([], .error .billingConnectorPaymentsSyncFailed)
    | .ok txn_id =>
      ([Effect.syncCall],
        match env.syncCall txn_id with
        | .ok resp => .ok (some resp)
        | .error _ => .error .billingConnectorPaymentsSyncFailed)
  | false => ([], .ok none)

/-- RevenueRecoveryInvoice::get_recovery_invoice_details: use the sync response
when present, otherwise parse the raw webhook through the connector's invoice
extraction capability. -/
def get_recovery_invoice_details (env : Env)
    (billing_connector_payment_details : Option BillingConnectorPaymentsSyncResponse) :
    RRes RevenueRecoveryInvoiceData :=
  match billing_connector_payment_details with
  | none =>
    ([Effect.webhookInvoiceParse],
      match env.webhookInvoice with
      | .ok data => .ok data
      | .error _ => .error .invoiceWebhookProcessingFailed)
  | some data => ([], .ok data.invoice)

/-- RevenueRecoveryInvoice::get_payment_intent: fetch the intent by merchant
reference id; a json body is the found intent, the payment-not-found error is
absence, any other outcome is the intent-fetch failure. -/
def get_payment_intent (env : Env) (invoice : RevenueRecoveryInvoiceData) :
    RRes (Option RecoveryPaymentIntent) :=
  ([Effect.fetchIntent invoice.merchant_reference_id],
    match env.intentFetch invoice.merchant_reference_id with
    | .ok (.jsonWithHeaders r) => .ok (some ⟨r.id, r.status, r.feature_metadata⟩)
    | .error .paymentNotFound => .ok none
    | .ok .otherShape => .error .paymentIntentFetchFailed
    | .error .otherApiError => .error .paymentIntentFetchFailed)

/-- RevenueRecoveryInvoice::create_payment_intent: invoke the intent-creation
operation and read back its json body. -/
def create_payment_intent (env : Env) (invoice : RevenueRecoveryInvoiceData) :
    RRes RecoveryPaymentIntent :=
  ([Effect.createIntent],
    match env.intentCreate invoice with
    | .ok (.jsonWithHeaders r) => .ok ⟨r.id, r.status, r.feature_metadata⟩
    | .ok .otherShape => .error .paymentIntentCreateFailed
    | .error _ => .error .paymentIntentCreateFailed)

/-- Lines 89 to 110 of the flow: fetch the intent, and only when the fetch
reports absence fall through to creation (transpose plus unwrap-or-else on the
optional fetch result). -/
def resolve_payment_intent (env : Env) (invoice : RevenueRecoveryInvoiceData) :
    RRes RecoveryPaymentIntent :=
  RRes.bind (get_payment_intent env invoice) fun found =>
    match found with
    | some intent => ([], .ok intent)
    | none => create_payment_intent env invoice

/-- RevenueRecoveryAttempt::get_recovery_invoice_transaction_details: use the
sync response when present, otherwise parse the raw webhook through the
connector's attempt extraction capability. -/
def get_recovery_invoice_transaction_details (env : Env)
    (billing_connector_payment_details : Option BillingConnectorPaymentsSyncResponse) :
    RRes RevenueRecoveryAttemptData :=
  match billing_connector_payment_details with
  | none =>
    ([Effect.webhookAttemptParse],
      match env.webhookAttempt with
      | .ok data => .ok data
      | .error _ => .error .transactionWebhookProcessingFailed)
  | some data => ([], .ok data.attempt)

/-- Modelled from the spec: lookup of an attempt in the expanded attempts list
by connector transaction id (the method on the payments response is defined
outside this repository's files; the spec says the reconciler matches an
existing attempt on the intent by the extracted connector transaction id). -/
def find_attempt_in_attempts_list_using_connector_transaction_id
    (resp : PaymentsResponseWithAttempts) (transaction_id : String) : Option AttemptInList :=
  resp.attempts.find? (fun a => a.connector_transaction_id == some transaction_id)

/-- RevenueRecoveryAttempt::get_payment_attempt: fetch the payment with its
attempts list and select the attempt matching the extracted connector
transaction id, pairing it with the unmodified intent; absence of a
transaction id or of a matching attempt is reported as none. -/
def get_payment_attempt (env : Env) (attempt_data : RevenueRecoveryAttemptData)
    (payment_intent : RecoveryPaymentIntent) :
    RRes (Option (RecoveryPaymentAttempt × RecoveryPaymentIntent)) :=
  ([Effect.fetchAttempts payment_intent.payment_id],
    match env.attemptsFetch payment_intent.payment_id with
    | .ok (.jsonWithHeaders resp) =>
      let final_attempt := attempt_data.connector_transaction_id.bind
        (fun transaction_id =>
          find_attempt_in_attempts_list_using_connector_transaction_id resp transaction_id)
      let payment_attempt := final_attempt.map
        (fun a => RecoveryPaymentAttempt.mk a.id a.status a.feature_metadata)
      .ok (payment_attempt.map (fun attempt => (attempt, payment_intent)))
    | .ok .otherShape => .error .paymentAttemptFetchFailed
    | .error _ => .error .paymentAttemptFetchFailed)

/-- RevenueRecoveryAttempt::create_payment_record_request: build the
record-attempt request from the extracted attempt data, the billing connector
account id and the optionally resolved payment connector account; the trigger
source is hardcoded to external. -/
def create_payment_record_request (attempt_data : RevenueRecoveryAttemptData)
    (billing_merchant_connector_account_id : String)
    (payment_merchant_connector_account : Option MerchantConnectorAccount) :
    PaymentsAttemptRecordRequest :=
  { amount_details := attempt_data.amount_details
    status := attempt_data.status
    billing := none
    shipping := none
    connector := payment_merchant_connector_account.map (fun account => account.connector_name)
    payment_merchant_connector_id :=
      payment_merchant_connector_account.map (fun account => account.id)
    error := attempt_data.error
    description := none
    connector_transaction_id := attempt_data.connector_transaction_id
    payment_method_type := attempt_data.payment_method_type
    billing_connector_id := billing_merchant_connector_account_id
    payment_method_subtype := attempt_data.payment_method_sub_type
    payment_method_data := none
    metadata := none
    feature_metadata :=
      some { revenue_recovery := some { attempt_triggered_by := TriggeredBy.external } }
    transaction_created_at := attempt_data.transaction_created_at
    processor_payment_method_token := attempt_data.processor_payment_method_token
    connector_customer_id := attempt_data.connector_customer_id }

/-- RevenueRecoveryAttempt::record_payment_attempt: build the record request,
invoke the record-attempt core operation, and read back the new attempt plus
the intent refreshed from the attempt response. -/
def record_payment_attempt (env : Env) (attempt_data : RevenueRecoveryAttemptData)
    (payment_intent : RecoveryPaymentIntent)
    (billing_connector_account_id : String)
    (payment_connector_account : Option MerchantConnectorAccount) :
    RRes (RecoveryPaymentAttempt × RecoveryPaymentIntent) :=
  let request_payload := create_payment_record_request attempt_data
    billing_connector_account_id payment_connector_account
  ([Effect.recordAttempt request_payload],
    match env.recordAttempt request_payload with
    | .ok (.jsonWithHeaders r) =>
      .ok (RecoveryPaymentAttempt.mk r.id r.status r.payment_attempt_feature_metadata,
           RecoveryPaymentIntent.mk payment_intent.payment_id r.status.toIntentStatus
             r.payment_intent_feature_metadata)
    | .ok .otherShape => .error .paymentAttemptFetchFailed
    | .error _ => .error .paymentAttemptFetchFailed)

/-- RevenueRecoveryAttempt::find_payment_merchant_connector_account: map the
account reference id of the attempt data to a payment connector account id;
when no id is mapped the account is none, otherwise fetch it from the store
and turn any store failure into the account-resolution error. -/
def find_payment_merchant_connector_account (env : Env)
    (attempt_data : RevenueRecoveryAttemptData)
    (billing_connector_account : BillingAccount) :
    RRes (Option MerchantConnectorAccount) :=
  match billing_connector_account.get_payment_merchant_connector_account_id_using_account_reference_id
      attempt_data.connector_account_reference_id with
  | none => ([], .ok none)
  | some mca_id =>
    ([Effect.findMcaById mca_id],
      match env.mcaFetch mca_id with
      | .ok account => .ok (some account)
      | .error _ => .error .paymentMerchantConnectorAccountNotFound)

/-- RevenueRecoveryAttempt::get_recovery_payment_attempt: only for transaction
events, extract the attempt data, resolve the payment connector account, look
up the matching attempt and fall through to recording a new one when no match
exists; invoice events yield no attempt and the unmodified intent. -/
def get_recovery_payment_attempt (env : Env) (is_recovery_transaction_event : Bool)
    (billing_connector_account : BillingAccount)
    (billing_connector_payment_details : Option BillingConnectorPaymentsSyncResponse)
    (payment_intent : RecoveryPaymentIntent) :
    RRes (Option RecoveryPaymentAttempt × RecoveryPaymentIntent) :=
  match is_recovery_transaction_event with
  | true =>
    RRes.bind (get_recovery_invoice_transaction_details env billing_connector_payment_details)
      fun invoice_transaction_details =>
    RRes.bind (find_payment_merchant_connector_account env invoice_transaction_details
      billing_connector_account) fun payment_merchant_connector_account =>
    RRes.bind
      (RRes.bind (get_payment_attempt env invoice_transaction_details payment_intent)
        fun found =>
          match found with
          | some pair => ([], .ok pair)
          | none => record_payment_attempt env invoice_transaction_details payment_intent
              billing_connector_account.get_id payment_merchant_connector_account)
      fun pair => ([], .ok (some pair.1, pair.2))
  | false => ([], .ok (none, payment_intent))

/-- RevenueRecoveryAttempt::insert_execute_pcr_task: obtain the schedule time
for the next attempt number, require a concrete attempt id, build the durable
task row with the deterministic id and insert it; on success report the
payment outcome with the intent's id and status. -/
def insert_execute_pcr_task (env : Env) (billing_mca_id : String) (merchant_id : String)
    (payment_intent : RecoveryPaymentIntent) (profile_id : String)
    (intent_retry_count : Nat) (payment_attempt_id : Option String)
    (runner : ProcessTrackerRunner) : RRes WebhookResponseTracker :=
  let task := "EXECUTE_WORKFLOW"
  let payment_id := payment_intent.payment_id
  let process_tracker_id := runner.display ++ "_" ++ task ++ "_" ++ payment_id
  RRes.bind
    (([Effect.fetchScheduleTime],
      match env.scheduleTime (intent_retry_count + 1) with
      | none => .error .scheduleTimeFetchFailed
      | some t => .ok t))
    fun schedule_time =>
  match payment_attempt_id with
  | none => ([], .error .paymentAttemptIdNotFound)
  | some attempt_id =>
    let execute_workflow_tracking_data : PcrWorkflowTrackingData :=
      { billing_mca_id := billing_mca_id
        global_payment_id := payment_id
        merchant_id := merchant_id
        profile_id := profile_id
        payment_attempt_id := attempt_id }
    match env.trackerConstructOk with
    | false => ([], .error .processTrackerCreationError)
    | true =>
      let process_tracker_entry : ProcessTrackerNew :=
        { id := process_tracker_id
          name := task
          runner := runner
          tag := ["PCR"]
          tracking_data := execute_workflow_tracking_data
          retry_count := some intent_retry_count
          schedule_time := schedule_time
          version := ApiVersion.v2 }
      RRes.bind
        (([Effect.insertProcess process_tracker_entry],
          match env.insertProcess process_tracker_entry with
          | .error _ => .error .processTrackerResponseError
          | .ok _ => .ok ()))
        fun _ => ([], .ok (WebhookResponseTracker.payment payment_id payment_intent.status))

/-- handle_schedule_failed_payment, lines 192 to 231 of the source: when the
intent retry count is less than or equal to the merchant retry threshold the
flow returns the no-effect result, otherwise it inserts the execute task for
the passive recovery workflow. -/
def handle_schedule_failed_payment (env : Env)
    (billing_connector_account : BillingAccount)
    (intent_retry_count : Nat) (mca_retry_threshold : Nat)
    (merchant_id : String) (profile_id : String)
    (payment_attempt_with_recovery_intent :
      Option RecoveryPaymentAttempt × RecoveryPaymentIntent) :
    RRes WebhookResponseTracker :=
  if intent_retry_count ≤ mca_retry_threshold then
    ([], .ok WebhookResponseTracker.noEffect)
  else
    insert_execute_pcr_task env billing_connector_account.get_id merchant_id
      payment_attempt_with_recovery_intent.2 profile_id intent_retry_count
      (payment_attempt_with_recovery_intent.1.map (fun attempt => attempt.attempt_id))
      ProcessTrackerRunner.passiveRecoveryWorkflow

/-- Inputs of one incoming webhook delivery: the precomputed source
verification flag, the semantic event type, and the merchant, profile and
billing connector account the webhook belongs to. -/
structure FlowInput where
  source_verified : Bool
  event_type : IncomingWebhookEvent
  merchant_id : String
  profile_id : String
  billing_connector_account : BillingAccount

/-- Context assembled by the flow before dispatching on the classified
action. -/
structure FlowCtx where
  billing_connector_payment_details : Option BillingConnectorPaymentsSyncResponse
  payment_intent : RecoveryPaymentIntent
  recovery_attempt : Option RecoveryPaymentAttempt
  recovery_intent : RecoveryPaymentIntent
  attempt_triggered_by : Option TriggeredBy
  action : RecoveryAction
  mca_retry_threshold : Nat
  intent_retry_count : Nat

/-- Lines 59 to 147 of recovery_incoming_webhook_flow: parse the connector
name, optionally run the billing connector sync, extract the invoice details,
resolve or create the intent, resolve the attempt for transaction events,
classify the action, and resolve the merchant retry threshold and the intent
retry count (both required before dispatching). -/
def flow_prefix (env : Env) (inp : FlowInput) : RRes FlowCtx :=
  RRes.bind
    (([], match env.connectorParse with
      | .ok _ => .ok ()
      | .error _ => .error RevenueRecoveryError.invoiceWebhookProcessingFailed))
    fun _ =>
  RRes.bind (get_billing_connector_payment_details env env.syncRequired)
    fun billing_connector_payment_details =>
  RRes.bind (get_recovery_invoice_details env billing_connector_payment_details)
    fun invoice_details =>
  RRes.bind (resolve_payment_intent env invoice_details)
    fun payment_intent =>
  RRes.bind (get_recovery_payment_attempt env
      inp.event_type.is_recovery_transaction_event
      inp.billing_connector_account billing_connector_payment_details payment_intent)
    fun attempt_with_intent =>
  let attempt_triggered_by := attempt_with_intent.1.bind
    (fun attempt => attempt.get_attempt_triggered_by)
  let action := RecoveryAction.get_action inp.event_type attempt_triggered_by
  RRes.bind
    (([], match inp.billing_connector_account.get_retry_threshold with
      | some threshold => .ok threshold
      | none => .error RevenueRecoveryError.billingThresholdRetryCountFetchFailed))
    fun mca_retry_threshold =>
  RRes.bind
    (([], match attempt_with_intent.2.feature_metadata.bind
        (fun metadata => metadata.get_retry_count) with
      | some count => .ok count
      | none => .error RevenueRecoveryError.retryCountFetchFailed))
    fun intent_retry_count =>
  ([], .ok (FlowCtx.mk billing_connector_payment_details payment_intent
    attempt_with_intent.1 attempt_with_intent.2 attempt_triggered_by action
    mca_retry_threshold intent_retry_count))

/-- Externally visible outcome of processing one webhook: a successful result,
a typed error, or divergence through the unimplemented todo arm. -/
inductive Outcome where
  | ok (result : WebhookResponseTracker)
  | err (e : RevenueRecoveryError)
  | panics
  deriving DecidableEq, Repr

/-- Conversion of a typed result into a flow outcome. -/
def Outcome.ofExcept : Except RevenueRecoveryError WebhookResponseTracker → Outcome
  | .ok r => .ok r
  | .error e => .err e

/-- recovery_incoming_webhook_flow: reject unverified webhooks before anything
else, run the prefix that assembles the context, then dispatch on the
classified action; the CancelInvoice arm is the unimplemented todo macro-call
in the source and is modelled as divergence. -/
def recovery_incoming_webhook_flow (env : Env) (inp : FlowInput) :
    List Effect × Outcome :=
  if inp.source_verified = false then
    ([], Outcome.err RevenueRecoveryError.webhookAuthenticationFailed)
  else
    match flow_prefix env inp with
    | (t, .error e) => (t, Outcome.err e)
    | (t, .ok ctx) =>
      match ctx.action with
      | .cancelInvoice => (t, Outcome.panics)
      | .scheduleFailedPayment =>
        let handled := handle_schedule_failed_payment env inp.billing_connector_account
          ctx.intent_retry_count ctx.mca_retry_threshold inp.merchant_id inp.profile_id
          (ctx.recovery_attempt, ctx.recovery_intent)
        (t ++ handled.1, Outcome.ofExcept handled.2)
      | .successPaymentExternal => (t, Outcome.ok WebhookResponseTracker.noEffect)
      | .pendingPayment => (t, Outcome.ok WebhookResponseTracker.noEffect)
      | .noAction => (t, Outcome.ok WebhookResponseTracker.noEffect)
      | .invalidAction => (t, Outcome.ok WebhookResponseTracker.noEffect)

/-- Base environment fixture in which every collaborator call fails or is
disabled; concrete scenarios override the oracles they need. -/
def envBase : Env :=
  { connectorParse := .ok ()
    syncRequired := false
    objectRefTxnId := .error ()
    syncCall := fun _ => .error ()
    webhookInvoice := .error ()
    webhookAttempt := .error ()
    intentFetch := fun _ => .error .otherApiError
    intentCreate := fun _ => .error ()
    attemptsFetch := fun _ => .error ()
    recordAttempt := fun _ => .error ()
    mcaFetch := fun _ => .error ()
    scheduleTime := fun _ => none
    trackerConstructOk := true
    insertProcess := fun _ => .ok () }

/-- Billing connector account fixture with a configured threshold of three and
no reference-to-account mapping. -/
def acctBase : BillingAccount :=
  { account_id := "bma_1", retry_threshold := some 3, account_reference_map := fun _ => none }

/-- Invoice data fixture. -/
def invoiceBase : RevenueRecoveryInvoiceData :=
  { merchant_reference_id := "inv_1", amount := 100, currency := "USD" }

/-- Intent response fixture with a retry counter of zero. -/
def respBase : PaymentsResponse :=
  { id := "pi_1", status := .processing,
    feature_metadata := some { payment_revenue_recovery := some { total_retry_count := 0 } } }

/-- Intent fixture matching the intent response fixture. -/
def intentBase : RecoveryPaymentIntent :=
  { payment_id := "pi_1", status := .processing,
    feature_metadata := some { payment_revenue_recovery := some { total_retry_count := 0 } } }

/-- C6: for every webhook with a billing-connector sync response, both invoice
and attempt extraction read the sync response and the connector's webhook-body
extraction capability is never invoked (the trace is empty); the webhook body
is parsed exactly when no sync response is present. -/
theorem sync_precedence (env : Env) (s : BillingConnectorPaymentsSyncResponse) :
    get_recovery_invoice_details env (some s) = ([], .ok s.invoice)
    ∧ get_recovery_invoice_transaction_details env (some s) = ([], .ok s.attempt)
    ∧ (get_recovery_invoice_details env none).1 = [Effect.webhookInvoiceParse]
    ∧ (get_recovery_invoice_transaction_details env none).1 = [Effect.webhookAttemptParse] :=
  ⟨rfl, rfl, rfl, rfl⟩

/-- C7: when the schedule time is obtainable but no concrete payment attempt
id is available, the retry-task insertion fails with the missing-attempt-id
error and no task row is inserted (the trace holds only the schedule-time
lookup). -/
theorem schedule_without_attempt_id_fails (env : Env)
    (billing_mca_id merchant_id profile_id : String)
    (payment_intent : RecoveryPaymentIntent) (intent_retry_count : Nat)
    (runner : ProcessTrackerRunner) (t : Nat)
    (h : env.scheduleTime (intent_retry_count + 1) = some t) :
    insert_execute_pcr_task env billing_mca_id merchant_id payment_intent profile_id
      intent_retry_count none runner
      = ([Effect.fetchScheduleTime], .error RevenueRecoveryError.paymentAttemptIdNotFound) := by
  simp [insert_execute_pcr_task, h, RRes.bind]

/-- Witness for C7 at a concrete environment with an obtainable schedule
time. -/
theorem schedule_without_attempt_id_fails_witness :
    insert_execute_pcr_task { envBase with scheduleTime := fun _ => some 7 } "bma_1" "m_1"
      intentBase "p_1" 2 none ProcessTrackerRunner.passiveRecoveryWorkflow
      = ([Effect.fetchScheduleTime], .error RevenueRecoveryError.paymentAttemptIdNotFound) :=
  schedule_without_attempt_id_fails { envBase with scheduleTime := fun _ => some 7 }
    "bma_1" "m_1" "p_1" intentBase 2 ProcessTrackerRunner.passiveRecoveryWorkflow 7 rfl

/-- C8: fetching an intent by merchant reference treats exactly the
payment-not-found error as absence; a json body is the found intent, and every
other outcome, including an unexpected response shape, becomes the
intent-fetch failure. -/
theorem intent_fetch_absence_policy (env : Env) (invoice : RevenueRecoveryInvoiceData) :
    ((get_payment_intent env invoice).2 = .ok none
      ↔ env.intentFetch invoice.merchant_reference_id = .error .paymentNotFound)
    ∧ (env.intentFetch invoice.merchant_reference_id = .ok .otherShape →
        (get_payment_intent env invoice).2
          = .error RevenueRecoveryError.paymentIntentFetchFailed)
    ∧ (env.intentFetch invoice.merchant_reference_id = .error .otherApiError →
        (get_payment_intent env invoice).2
          = .error RevenueRecoveryError.paymentIntentFetchFailed)
    ∧ (∀ r, env.intentFetch invoice.merchant_reference_id = .ok (.jsonWithHeaders r) →
        (get_payment_intent env invoice).2
          = .ok (some (RecoveryPaymentIntent.mk r.id r.status r.feature_metadata))) := by
  refine ⟨?_, ?_, ?_, ?_⟩
  · cases h : env.intentFetch invoice.merchant_reference_id with
    | ok resp => cases resp <;> simp [get_payment_intent, h]
    | error k => cases k <;> simp [get_payment_intent, h]
  · intro h
    simp [get_payment_intent, h]
  · intro h
    simp [get_payment_intent, h]
  · intro r h
    simp [get_payment_intent, h]

/-- Witness for C8 at a concrete environment reporting payment-not-found. -/
theorem intent_fetch_absence_policy_witness :
    (get_payment_intent { envBase with intentFetch := fun _ => .error .paymentNotFound }
      invoiceBase).2 = .ok none :=
  (intent_fetch_absence_policy
    { envBase with intentFetch := fun _ => .error .paymentNotFound } invoiceBase).1.mpr rfl

/-- C9: a webhook whose source-verification flag is false is rejected with the
authentication error before anything else happens; the effect trace is empty,
so no sync call, store access, intent or attempt operation occurs. -/
theorem unverified_webhook_aborts_immediately (env : Env) (inp : FlowInput)
    (h : inp.source_verified = false) :
    recovery_incoming_webhook_flow env inp
      = ([], Outcome.err RevenueRecoveryError.webhookAuthenticationFailed) := by
  simp [recovery_incoming_webhook_flow, h]

/-- Witness for C9 at a concrete unverified delivery. -/
theorem unverified_webhook_aborts_immediately_witness :
    recovery_incoming_webhook_flow envBase
      { source_verified := false, event_type := .recoveryPaymentFailure,
        merchant_id := "m_1", profile_id := "p_1", billing_connector_account := acctBase }
      = ([], Outcome.err RevenueRecoveryError.webhookAuthenticationFailed) :=
  unverified_webhook_aborts_immediately envBase
    { source_verified := false, event_type := .recoveryPaymentFailure,
      merchant_id := "m_1", profile_id := "p_1", billing_connector_account := acctBase } rfl

/-- C10: when the assembled context classifies the action as CancelInvoice,
the flow reaches the unimplemented todo arm and diverges instead of returning
a webhook result or a typed error. -/
theorem cancel_invoice_has_no_return (env : Env) (inp : FlowInput)
    (t : List Effect) (ctx : FlowCtx)
    (hsv : inp.source_verified = true)
    (hpre : flow_prefix env inp = (t, .ok ctx))
    (hact : ctx.action = .cancelInvoice) :
    recovery_incoming_webhook_flow env inp = (t, Outcome.panics) := by
  simp [recovery_incoming_webhook_flow, hsv, hpre, hact]

/-- Environment fixture for the cancel-invoice scenario: webhook parsing and
intent fetching succeed. -/
def envC10 : Env :=
  { envBase with
    webhookInvoice := .ok invoiceBase
    intentFetch := fun _ => .ok (.jsonWithHeaders respBase) }

/-- Verified invoice-cancellation delivery fixture. -/
def inpC10 : FlowInput :=
  { source_verified := true, event_type := .recoveryInvoiceCancel,
    merchant_id := "m_1", profile_id := "p_1", billing_connector_account := acctBase }

/-- Context assembled by the flow prefix in the cancel-invoice scenario. -/
def ctxC10 : FlowCtx :=
  { billing_connector_payment_details := none, payment_intent := intentBase,
    recovery_attempt := none, recovery_intent := intentBase,
    attempt_triggered_by := none, action := .cancelInvoice,
    mca_retry_threshold := 3, intent_retry_count := 0 }

/-- Witness for C10: a concrete verified invoice-cancellation webhook whose
prefix succeeds reaches divergence. -/
theorem cancel_invoice_has_no_return_witness :
    recovery_incoming_webhook_flow envC10 inpC10
      = ([Effect.webhookInvoiceParse, Effect.fetchIntent "inv_1"], Outcome.panics) :=
  cancel_invoice_has_no_return envC10 inpC10
    [Effect.webhookInvoiceParse, Effect.fetchIntent "inv_1"] ctxC10 rfl rfl rfl

/-- C4: invoice reconciliation is lookup-then-create; a found intent is
returned as-is with no creation call in the trace, and the creation call can
appear in the trace only when the fetch reported the payment-not-found
absence. -/
theorem invoice_reconciliation_lookup_then_create (env : Env)
    (invoice : RevenueRecoveryInvoiceData) (r : PaymentsResponse) :
    (env.intentFetch invoice.merchant_reference_id = .ok (.jsonWithHeaders r) →
      resolve_payment_intent env invoice
        = ([Effect.fetchIntent invoice.merchant_reference_id],
           .ok (RecoveryPaymentIntent.mk r.id r.status r.feature_metadata)))
    ∧ (Effect.createIntent ∈ (resolve_payment_intent env invoice).1 →
        env.intentFetch invoice.merchant_reference_id = .error .paymentNotFound) := by
  constructor
  · intro h
    simp [resolve_payment_intent, get_payment_intent, h, RRes.bind]
  · intro hmem
    cases h : env.intentFetch invoice.merchant_reference_id with
    | ok resp =>
      cases resp with
      | jsonWithHeaders body =>
        simp [resolve_payment_intent, get_payment_intent, h, RRes.bind] at hmem
      | otherShape =>
        simp [resolve_payment_intent, get_payment_intent, h, RRes.bind] at hmem
    | error k =>
      cases k with
      | paymentNotFound => rfl
      | otherApiError =>
        simp [resolve_payment_intent, get_payment_intent, h, RRes.bind] at hmem

/-- Witness for C4: reconciling against a store that already contains the
intent returns that intent without invoking creation. -/
theorem invoice_reconciliation_lookup_then_create_witness :
    resolve_payment_intent { envBase with intentFetch := fun _ => .ok (.jsonWithHeaders respBase) }
      invoiceBase
      = ([Effect.fetchIntent "inv_1"], .ok intentBase) :=
  (invoice_reconciliation_lookup_then_create
    { envBase with intentFetch := fun _ => .ok (.jsonWithHeaders respBase) }
    invoiceBase respBase).1 rfl

/-- C5: for transaction webhooks, an attempt already carrying the extracted
connector transaction id is returned exactly as found, paired with the
unmodified intent and with no record call in the trace; when no attempt
matches, a new one is recorded and the record request always carries the
external trigger source. -/
theorem attempt_matching_and_external_trigger (env : Env) (acct : BillingAccount)
    (s : BillingConnectorPaymentsSyncResponse) (intent : RecoveryPaymentIntent)
    (resp : PaymentsResponseWithAttempts) (t0 : List Effect)
    (payAcc : Option MerchantConnectorAccount)
    (hacc : find_payment_merchant_connector_account env s.attempt acct = (t0, .ok payAcc))
    (hfetch : env.attemptsFetch intent.payment_id = .ok (.jsonWithHeaders resp)) :
    (∀ transaction_id a,
      s.attempt.connector_transaction_id = some transaction_id →
      find_attempt_in_attempts_list_using_connector_transaction_id resp transaction_id
        = some a →
      get_recovery_payment_attempt env true acct (some s) intent
        = (t0 ++ [Effect.fetchAttempts intent.payment_id],
           .ok (some (RecoveryPaymentAttempt.mk a.id a.status a.feature_metadata), intent)))
    ∧ (∀ r,
      s.attempt.connector_transaction_id.bind
        (fun transaction_id =>
          find_attempt_in_attempts_list_using_connector_transaction_id resp transaction_id)
        = none →
      env.recordAttempt (create_payment_record_request s.attempt acct.get_id payAcc)
        = .ok (.jsonWithHeaders r) →
      get_recovery_payment_attempt env true acct (some s) intent
        = (t0 ++ [Effect.fetchAttempts intent.payment_id,
             Effect.recordAttempt (create_payment_record_request s.attempt acct.get_id payAcc)],
           .ok (some (RecoveryPaymentAttempt.mk r.id r.status r.payment_attempt_feature_metadata),
                RecoveryPaymentIntent.mk intent.payment_id r.status.toIntentStatus
                  r.payment_intent_feature_metadata)))
    ∧ (∀ (attempt_data : RevenueRecoveryAttemptData) (bid : String)
        (pa : Option MerchantConnectorAccount),
        (create_payment_record_request attempt_data bid pa).feature_metadata
          = some (PaymentAttemptFeatureMetadata.mk
              (some (PaymentAttemptRevenueRecoveryData.mk TriggeredBy.external))))
    ∧ (∀ (attempt_data : RevenueRecoveryAttemptData) (acct2 : BillingAccount)
        (req : PaymentsAttemptRecordRequest),
        Effect.recordAttempt req
          ∉ (find_payment_merchant_connector_account env attempt_data acct2).1) := by
  refine ⟨?_, ?_, ?_, ?_⟩
  · intro transaction_id a htxn hfind
    simp [get_recovery_payment_attempt, get_recovery_invoice_transaction_details, hacc,
      get_payment_attempt, hfetch, htxn, hfind, RRes.bind]
  · intro r hnone hrec
    simp [get_recovery_payment_attempt, get_recovery_invoice_transaction_details, hacc,
      get_payment_attempt, hfetch, hnone, record_payment_attempt, hrec, RRes.bind]
  · intro attempt_data bid pa
    rfl
  · intro attempt_data acct2 req
    cases hmap : acct2.account_reference_map attempt_data.connector_account_reference_id with
    | none =>
      simp [find_payment_merchant_connector_account,
        BillingAccount.get_payment_merchant_connector_account_id_using_account_reference_id,
        hmap]
    | some mca_id =>
      simp [find_payment_merchant_connector_account,
        BillingAccount.get_payment_merchant_connector_account_id_using_account_reference_id,
        hmap]

/-- Existing attempt fixture carrying transaction id txn_42. -/
def attInListC5 : AttemptInList :=
  { id := "att_1", status := .failure,
    feature_metadata := some { revenue_recovery := some { attempt_triggered_by := .internal } },
    connector_transaction_id := some "txn_42" }

/-- Attempts list fixture holding an attempt for transaction id txn_42. -/
def respC5 : PaymentsResponseWithAttempts :=
  { attempts := [attInListC5] }

/-- Attempt data fixture extracted for transaction id txn_42. -/
def attemptDataC5 : RevenueRecoveryAttemptData :=
  { connector_transaction_id := some "txn_42"
    connector_account_reference_id := none
    status := .failure
    payment_method_type := "card"
    payment_method_sub_type := "credit"
    amount_details := { amount := 100 }
    error := none
    transaction_created_at := some 1
    processor_payment_method_token := none
    connector_customer_id := none }

/-- Sync response fixture for the attempt-matching scenario. -/
def syncC5 : BillingConnectorPaymentsSyncResponse :=
  { invoice := invoiceBase, attempt := attemptDataC5 }

/-- Environment fixture in which the attempts list for the intent already
holds the matching attempt. -/
def envC5 : Env :=
  { envBase with attemptsFetch := fun _ => .ok (.jsonWithHeaders respC5) }

/-- Witness for C5: the existing attempt for txn_42 is returned with the
unmodified intent and nothing is recorded. -/
theorem attempt_matching_and_external_trigger_witness :
    get_recovery_payment_attempt envC5 true acctBase (some syncC5) intentBase
      = ([Effect.fetchAttempts "pi_1"],
         .ok (some (RecoveryPaymentAttempt.mk "att_1" .failure
             (some { revenue_recovery := some { attempt_triggered_by := .internal } })),
           intentBase)) :=
  (attempt_matching_and_external_trigger envC5 acctBase syncC5 intentBase respC5 [] none
    rfl rfl).1 "txn_42" attInListC5 rfl (by decide)

/-- Billing account fixture with no configured retry threshold. -/
def acctC2 : BillingAccount :=
  { account_id := "bma_1", retry_threshold := none, account_reference_map := fun _ => none }

/-- Verified delivery fixture of an unrecognized event against a merchant
with no configured retry threshold. -/
def inpC2 : FlowInput :=
  { source_verified := true, event_type := .otherEvent,
    merchant_id := "m_1", profile_id := "p_1", billing_connector_account := acctC2 }

/-- Counterexample for C2: a webhook classified InvalidAction (unrecognized
event, no prior attempt) does return an error when the merchant retry
threshold is unresolvable, because the flow resolves the threshold before
dispatching on the action. -/
theorem valid_state_error_counterexample :
    recovery_incoming_webhook_flow envC10 inpC2
      = ([Effect.webhookInvoiceParse, Effect.fetchIntent "inv_1"],
         Outcome.err RevenueRecoveryError.billingThresholdRetryCountFetchFailed) := rfl

/-- C2 as amended: whenever the pre-dispatch steps all succeed (including the
resolution of the merchant retry threshold and of the intent retry count) and
the classified action is NoAction, SuccessPaymentExternal, PendingPayment or
InvalidAction, the flow completes successfully with the no-effect result. -/
theorem valid_states_complete_no_effect (env : Env) (inp : FlowInput)
    (t : List Effect) (ctx : FlowCtx)
    (hsv : inp.source_verified = true)
    (hpre : flow_prefix env inp = (t, .ok ctx))
    (hact : ctx.action = .noAction ∨ ctx.action = .successPaymentExternal
      ∨ ctx.action = .pendingPayment ∨ ctx.action = .invalidAction) :
    recovery_incoming_webhook_flow env inp
      = (t, Outcome.ok WebhookResponseTracker.noEffect) := by
  rcases hact with h | h | h | h <;>
    simp [recovery_incoming_webhook_flow, hsv, hpre, h]

/-- Verified delivery fixture of an unrecognized event against a merchant
with a configured threshold. -/
def inpC2w : FlowInput :=
  { source_verified := true, event_type := .otherEvent,
    merchant_id := "m_1", profile_id := "p_1", billing_connector_account := acctBase }

/-- Context assembled by the flow prefix for the unrecognized-event
scenario. -/
def ctxC2w : FlowCtx :=
  { billing_connector_payment_details := none, payment_intent := intentBase,
    recovery_attempt := none, recovery_intent := intentBase,
    attempt_triggered_by := none, action := .invalidAction,
    mca_retry_threshold := 3, intent_retry_count := 0 }

/-- Witness for the amended C2 at a concrete InvalidAction delivery. -/
theorem valid_states_complete_no_effect_witness :
    recovery_incoming_webhook_flow envC10 inpC2w
      = ([Effect.webhookInvoiceParse, Effect.fetchIntent "inv_1"],
         Outcome.ok WebhookResponseTracker.noEffect) :=
  valid_states_complete_no_effect envC10 inpC2w
    [Effect.webhookInvoiceParse, Effect.fetchIntent "inv_1"] ctxC2w rfl rfl
    (Or.inr (Or.inr (Or.inr rfl)))

/-- Billing account fixture that maps every account reference to the payment
connector account id mca_7. -/
def acctC3 : BillingAccount :=
  { account_id := "bma_1", retry_threshold := some 3,
    account_reference_map := fun _ => some "mca_7" }

/-- Counterexample for C3: when the account reference maps to an account id
but the store lookup for that account fails, the attempt reconciler aborts
with the account-resolution error before any attempt lookup or recording,
instead of treating the account as absent and proceeding. -/
theorem account_resolution_fatal_counterexample :
    get_recovery_payment_attempt envBase true acctC3 (some syncC5) intentBase
      = ([Effect.findMcaById "mca_7"],
         .error RevenueRecoveryError.paymentMerchantConnectorAccountNotFound) := rfl

/-- C3 as amended: only a missing reference-to-account mapping is non-fatal;
the account then resolves to none with no store lookup, and the transaction
flow proceeds to attempt resolution (the attempts fetch appears in its
trace); a store failure on a mapped account id instead aborts, as the
counterexample shows. -/
theorem missing_account_mapping_nonfatal (env : Env) (acct : BillingAccount)
    (attempt_data : RevenueRecoveryAttemptData)
    (s : BillingConnectorPaymentsSyncResponse) (intent : RecoveryPaymentIntent) :
    (acct.account_reference_map attempt_data.connector_account_reference_id = none →
      find_payment_merchant_connector_account env attempt_data acct = ([], .ok none))
    ∧ (acct.account_reference_map s.attempt.connector_account_reference_id = none →
      Effect.fetchAttempts intent.payment_id
        ∈ (get_recovery_payment_attempt env true acct (some s) intent).1) := by
  constructor
  · intro h
    simp [find_payment_merchant_connector_account,
      BillingAccount.get_payment_merchant_connector_account_id_using_account_reference_id, h]
  · intro h
    cases hf : env.attemptsFetch intent.payment_id with
    | ok resp =>
      cases resp with
      | jsonWithHeaders body =>
        cases hb : s.attempt.connector_transaction_id.bind
            (fun transaction_id =>
              find_attempt_in_attempts_list_using_connector_transaction_id body
                transaction_id) with
        | none =>
          cases hr : env.recordAttempt
              (create_payment_record_request s.attempt acct.get_id none) with
          | ok rr =>
            cases rr with
            | jsonWithHeaders r =>
              simp [get_recovery_payment_attempt, get_recovery_invoice_transaction_details,
                find_payment_merchant_connector_account,
                BillingAccount.get_payment_merchant_connector_account_id_using_account_reference_id,
                h, get_payment_attempt, hf, hb, record_payment_attempt, hr, RRes.bind]
            | otherShape =>
              simp [get_recovery_payment_attempt, get_recovery_invoice_transaction_details,
                find_payment_merchant_connector_account,
                BillingAccount.get_payment_merchant_connector_account_id_using_account_reference_id,
                h, get_payment_attempt, hf, hb, record_payment_attempt, hr, RRes.bind]
          | error e2 =>
            simp [get_recovery_payment_attempt, get_recovery_invoice_transaction_details,
              find_payment_merchant_connector_account,
              BillingAccount.get_payment_merchant_connector_account_id_using_account_reference_id,
              h, get_payment_attempt, hf, hb, record_payment_attempt, hr, RRes.bind]
        | some pair =>
          simp [get_recovery_payment_attempt, get_recovery_invoice_transaction_details,
            find_payment_merchant_connector_account,
            BillingAccount.get_payment_merchant_connector_account_id_using_account_reference_id,
            h, get_payment_attempt, hf, hb, RRes.bind]
      | otherShape =>
        simp [get_recovery_payment_attempt, get_recovery_invoice_transaction_details,
          find_payment_merchant_connector_account,
          BillingAccount.get_payment_merchant_connector_account_id_using_account_reference_id,
          h, get_payment_attempt, hf, RRes.bind]
    | error e =>
      simp [get_recovery_payment_attempt, get_recovery_invoice_transaction_details,
        find_payment_merchant_connector_account,
        BillingAccount.get_payment_merchant_connector_account_id_using_account_reference_id,
        h, get_payment_attempt, hf, RRes.bind]

/-- Witness for the amended C3 at a concrete delivery with no mapped account:
the account resolves to none and the attempt resolution still runs. -/
theorem missing_account_mapping_nonfatal_witness :
    find_payment_merchant_connector_account envC5 attemptDataC5 acctBase = ([], .ok none)
    ∧ Effect.fetchAttempts "pi_1"
        ∈ (get_recovery_payment_attempt envC5 true acctBase (some syncC5) intentBase).1 :=
  ⟨(missing_account_mapping_nonfatal envC5 acctBase attemptDataC5 syncC5 intentBase).1 rfl,
   (missing_account_mapping_nonfatal envC5 acctBase attemptDataC5 syncC5 intentBase).2 rfl⟩

/-- Environment fixture in which the schedule-time provider and the task
store both work. -/
def envC1 : Env := { envBase with scheduleTime := fun _ => some 9 }

/-- Failed externally triggered attempt fixture. -/
def attC1 : RecoveryPaymentAttempt :=
  { attempt_id := "attempt_9", attempt_status := .failure,
    feature_metadata := some { revenue_recovery := some { attempt_triggered_by := .external } } }

/-- Task row the inverted gate inserts for retry count four over threshold
three. -/
def ptC1 : ProcessTrackerNew :=
  { id := "PASSIVE_RECOVERY_WORKFLOW_EXECUTE_WORKFLOW_pi_1"
    name := "EXECUTE_WORKFLOW"
    runner := .passiveRecoveryWorkflow
    tag := ["PCR"]
    tracking_data :=
      { billing_mca_id := "bma_1", global_payment_id := "pi_1",
        merchant_id := "m_1", profile_id := "p_1", payment_attempt_id := "attempt_9" }
    retry_count := some 4
    schedule_time := 9
    version := .v2 }

/-- C1: observed behavior of handle_schedule_failed_payment at the spec's own
scenario inputs. With retry count two and threshold three (within budget, the
claim requires scheduling) the code returns the no-effect result and inserts
nothing; with retry count four over threshold three (budget exceeded, the
claim requires no effect) the code fetches a schedule time, inserts the retry
task and reports the payment outcome. The gate in the source is the claim's
gate inverted. -/
theorem schedule_gate_code_behavior :
    handle_schedule_failed_payment envC1 acctBase 2 3 "m_1" "p_1" (some attC1, intentBase)
      = ([], .ok WebhookResponseTracker.noEffect)
    ∧ handle_schedule_failed_payment envC1 acctBase 4 3 "m_1" "p_1" (some attC1, intentBase)
      = ([Effect.fetchScheduleTime, Effect.insertProcess ptC1],
         .ok (WebhookResponseTracker.payment "pi_1" IntentStatus.processing)) :=
  ⟨rfl, rfl⟩
